import Mathlib

/-!
Shallow embedding of the authentication/session-security core of the
GigaChat repository (`app/core/security.py`), together with theorems
settling the specification claims about it.

Modelling conventions:
* instants and durations are integer epoch seconds (`Int`); the source's
  `timedelta(minutes=m)` becomes `60 * m`, `timedelta(days=d)` becomes
  `86400 * d`;
* `datetime.utcnow()` becomes an explicit `now : Int` argument;
* the database session object becomes explicit state passing
  (`UserState`, `List SessionRec`);
* fallible code (an uncaught Python exception) returns `Except Unit`.
-/

namespace GigaChat

/-- Configuration values from `app/core/config.py` (class `Settings`), with
the defaults declared there.  Only the fields used by the security core are
embedded.  The secret-valued fields (`AUTH_PASSWORD_PEPPER`,
`PASETO_SECRET`) are random at startup in the source; here they are
arbitrary strings, defaulted to placeholders. -/
structure Settings where
  ACCESS_TOKEN_EXPIRE_MINUTES : Int := 60
  REFRESH_TOKEN_EXPIRE_DAYS : Int := 30
  PASETO_ISSUER : String := "GigaChat"
  PASETO_AUDIENCE : String := "GigaChat-Web"
  PASETO_LEEWAY_SECONDS : Int := 60
  PASETO_SECRET : String := "paseto-secret"
  AUTH_PASSWORD_PEPPER : String := "pepper"
  ACCOUNT_LOCKOUT_THRESHOLD : Nat := 5
  ACCOUNT_LOCKOUT_WINDOW_MINUTES : Int := 15
  ACCOUNT_LOCKOUT_DURATION_MINUTES : Int := 30
  MIN_PASSWORD_LENGTH : Nat := 12
  MAX_CONCURRENT_SESSIONS : Nat := 10
  HIBP_API_KEY : Option String := none
deriving Repr

/-- The lockout-relevant fields of the `User` model
(`app/models/auth.py`): locked flag, failed-attempt counter, timestamp of
the last failed attempt, lockout-expiry timestamp. -/
structure UserState where
  is_locked : Bool
  failed_login_attempts : Nat
  last_failed_login : Option Int
  lockout_until : Option Int
deriving DecidableEq, Repr

/-- Embedding of `check_account_lockout` (security.py lines 133-145).
Returns the boolean result together with the (possibly mutated) user
record.  The Python truthiness test `if user.lockout_until and
datetime.utcnow() > user.lockout_until` becomes the `Option` match plus
the strict comparison `lu < now`. -/
def check_account_lockout (now : Int) (user : UserState) : Bool × UserState :=
  if !user.is_locked then
    (false, user)
  else
    match user.lockout_until with
    | some lu =>
      if lu < now then
        (false, { user with is_locked := false, failed_login_attempts := 0,
                            lockout_until := none })
      else
        (true, user)
    | none => (true, user)

/-- Embedding of `handle_failed_login` (security.py lines 147-166).
Step 1: reset the counter when the last failure predates the sliding
window (`user.last_failed_login < now - window`).  Step 2: increment the
counter and stamp the failure.  Step 3: lock and set `lockout_until` when
the counter has reached the threshold.  The `db.commit()` is persistence
of the returned record and has no further effect on the fields. -/
def handle_failed_login (s : Settings) (now : Int) (user : UserState) : UserState :=
  let user1 :=
    match user.last_failed_login with
    | some t =>
      if t < now - 60 * s.ACCOUNT_LOCKOUT_WINDOW_MINUTES then
        { user with failed_login_attempts := 0 }
      else
        user
    | none => user
  let user2 := { user1 with failed_login_attempts := user1.failed_login_attempts + 1,
                            last_failed_login := some now }
  if s.ACCOUNT_LOCKOUT_THRESHOLD ≤ user2.failed_login_attempts then
    { user2 with is_locked := true,
                 lockout_until := some (now + 60 * s.ACCOUNT_LOCKOUT_DURATION_MINUTES) }
  else
    user2

/-- Value of a claim inside a token payload: the source uses a Python
dict with string and numeric-instant values. -/
inductive JVal where
  | str (s : String)
  | num (n : Int)
deriving DecidableEq, Repr

/-- A Python dict of claims, modelled as a key-unique association list. -/
abbrev ClaimMap := List (String × JVal)

/-- Dict lookup (`d.get(k)` / `d[k]`): value at the first matching key. -/
def dictGet (m : ClaimMap) (k : String) : Option JVal :=
  match m with
  | [] => none
  | p :: rest => if p.1 = k then some p.2 else dictGet rest k

/-- Dict assignment (`d[k] = v`, one step of `d.update(...)`): replace the
value at an existing key in place, else append the new binding. -/
def dictSet (m : ClaimMap) (k : String) (v : JVal) : ClaimMap :=
  match m with
  | [] => [(k, v)]
  | p :: rest => if p.1 = k then (k, v) :: rest else p :: dictSet rest k v

/-- A v2.local Paseto token, modelled at the claim level: authenticated
encryption of the payload under a symmetric key.  `pyseto.decode` with the
wrong key, or on a malformed string, raises (mapped to the invalid
outcome by the caller's bare `except`). -/
inductive PasetoToken where
  | enc (key : String) (payload : ClaimMap)
  | malformed
deriving DecidableEq, Repr

/-- Expiry instant chosen by `create_access_token` (security.py lines
73-76): `now + expires_delta` when `expires_delta` is truthy (present and
nonzero), else `now + ACCESS_TOKEN_EXPIRE_MINUTES` minutes. -/
def access_token_expire (s : Settings) (now : Int) (expires_delta : Option Int) : Int :=
  match expires_delta with
  | some d => if d ≠ 0 then now + d else now + 60 * s.ACCESS_TOKEN_EXPIRE_MINUTES
  | none => now + 60 * s.ACCESS_TOKEN_EXPIRE_MINUTES

/-- Embedding of `create_access_token` (security.py lines 69-97): copy the
caller's claims, inject `exp`, `iss`, `aud`, `iat`, and encrypt under
`PASETO_SECRET`. -/
def create_access_token (s : Settings) (now : Int) (data : ClaimMap)
    (expires_delta : Option Int) : PasetoToken :=
  let expire := access_token_expire s now expires_delta
  let to_encode :=
    dictSet (dictSet (dictSet (dictSet data
      "exp" (.num expire))
      "iss" (.str s.PASETO_ISSUER))
      "aud" (.str s.PASETO_AUDIENCE))
      "iat" (.num now)
  .enc s.PASETO_SECRET to_encode

/-- Embedding of `verify_token` (security.py lines 99-131): decrypt and
authenticate; reject when `exp - leeway <= now`, when the issuer or the
audience mismatch, and on any raise (wrong key, malformed token, missing
or non-numeric `exp`), which the bare `except` maps to `None`. -/
def verify_token (s : Settings) (now : Int) (token : PasetoToken) : Option ClaimMap :=
  match token with
  | .malformed => none
  | .enc k payload =>
    if k ≠ s.PASETO_SECRET then none
    else
      match dictGet payload "exp" with
      | some (.num exp) =>
        if exp - s.PASETO_LEEWAY_SECONDS ≤ now then none
        else if dictGet payload "iss" ≠ some (.str s.PASETO_ISSUER) then none
        else if dictGet payload "aud" ≠ some (.str s.PASETO_AUDIENCE) then none
        else some payload
      | _ => none

/-- Model of the bcrypt library the source delegates to: an ideal salted,
collision-free digest.  The hash string is self-describing — it embeds
the salt, a separator, and an injective digest of the input (idealised
as the input itself).  The repository's own contribution — appending the
deployment-wide pepper symmetrically on hashing and on verification — is
embedded verbatim in `get_password_hash` / `verify_password` below. -/
def bcrypt_hashpw (data : String) (salt : String) : String :=
  salt ++ "$" ++ data

/-- Salt embedded in a bcrypt hash string: everything before the
separator, as `bcrypt.checkpw` recovers it to re-derive the hash. -/
def bcrypt_salt_of (hashed : String) : String :=
  String.mk (hashed.data.takeWhile (fun c => c != '$'))

/-- Model of `bcrypt.checkpw`: re-hash the candidate with the salt
embedded in the stored hash and compare. -/
def bcrypt_checkpw (data : String) (hashed : String) : Bool :=
  bcrypt_hashpw data (bcrypt_salt_of hashed) == hashed

/-- Embedding of `get_password_hash` (security.py lines 13-18): append
the pepper (`f-string` concatenation), then bcrypt-hash under a fresh
salt.  The randomly generated salt (`bcrypt.gensalt`) is an explicit
argument. -/
def get_password_hash (s : Settings) (salt : String) (password : String) : String :=
  bcrypt_hashpw (password ++ s.AUTH_PASSWORD_PEPPER) salt

/-- Embedding of `verify_password` (security.py lines 20-23): append the
pepper and check against the stored hash. -/
def verify_password (s : Settings) (plain_password : String)
    (hashed_password : String) : Bool :=
  bcrypt_checkpw (plain_password ++ s.AUTH_PASSWORD_PEPPER) hashed_password

/-- Outcome of the outbound HTTP GET to the breach-check service: either
the call raises (connection failure or timeout — the source passes no
timeout and wraps the call in no try/except), or it returns a status code
and a response text. -/
inductive HttpResult where
  | raises
  | response (status_code : Nat) (text : String)
deriving DecidableEq, Repr

/-- Embedding of `is_password_breached` (security.py lines 25-46).  The
SHA-1 hex digest is an explicit function argument `sha1hex`; `net` is
the outcome of the `requests.get` call (whose query carries the first 5
digest characters).  An unconfigured key or a non-200 status
short-circuits to `false`; a raising call has no handler in the source
and propagates, embedded as `Except.error`. -/
def is_password_breached (sha1hex : String → String) (api_key : Option String)
    (net : HttpResult) (password : String) : Except Unit Bool :=
  match api_key with
  | none => .ok false
  | some _ =>
    let password_hash := (sha1hex password).toUpper
    match net with
    | .raises => .error ()
    | .response status_code text =>
      if status_code ≠ 200 then .ok false
      else
        let hash_suffix := password_hash.drop 5
        .ok (text.containsSubstr hash_suffix.toSubstring)

/-- The four character-class checks of `validate_password_strength`
(security.py lines 53-58).  Each single-class Python regex becomes the
corresponding ASCII character predicate, since `re.search` of such a
pattern succeeds exactly when some character of the string matches the
class: `[A-Z]`, `[a-z]`, `[0-9]`, `[^A-Za-z0-9]`. -/
def password_checks : List ((Char → Bool) × String) :=
  [(Char.isUpper, "uppercase letter"),
   (Char.isLower, "lowercase letter"),
   (Char.isDigit, "number"),
   (fun c => !c.isAlphanum, "special character")]

/-- The list comprehension of security.py line 60: descriptions of the
checks the password fails, in check order. -/
def missing_checks (password : String) : List String :=
  (password_checks.filter (fun chk => !password.data.any chk.1)).map (fun chk => chk.2)

/-- Embedding of `validate_password_strength` (security.py lines 48-67):
length check, character-class checks collected into one message, then
the breach check, whose uncaught raise propagates to the caller. -/
def validate_password_strength (s : Settings) (sha1hex : String → String)
    (net : HttpResult) (password : String) : Except Unit (Bool × String) :=
  if password.length < s.MIN_PASSWORD_LENGTH then
    .ok (false, "Password must be at least " ++ toString s.MIN_PASSWORD_LENGTH ++
      " characters long")
  else if missing_checks password ≠ [] then
    .ok (false, "Password must contain at least one " ++
      String.intercalate ", " (missing_checks password))
  else
    match is_password_breached sha1hex s.HIBP_API_KEY net password with
    | .error e => .error e
    | .ok true => .ok (false,
        "This password has appeared in data breaches. Please choose a different one.")
    | .ok false => .ok (true, "Password meets security requirements")

/-- The session-manager-relevant fields of the `Session` model
(`app/models/auth.py`): owning account, device binding, originating
address, active flag (default true on creation), creation instant
(server default now) and expiry instant.  `device_info` is stored
JSON-serialised; the serialised text is the field here. -/
structure SessionRec where
  user_id : Nat
  device_id : String
  device_info : String
  ip_address : String
  is_active : Bool
  created_at : Int
  expires_at : Int
deriving DecidableEq, Repr

/-- The count query of security.py lines 177-180: sessions of the
account with `is_active == True`. -/
def activeCount (db : List SessionRec) (uid : Nat) : Nat :=
  (db.filter (fun r => r.user_id == uid && r.is_active)).length

/-- Minimum of a list of instants (`none` on the empty list). -/
def listMinInt : List Int → Option Int
  | [] => none
  | x :: xs =>
    match listMinInt xs with
    | none => some x
    | some m => some (min x m)

/-- Creation instant of the oldest active session of the account — the
sort key of the row selected by `order_by(created_at).first()` in
security.py lines 184-187. -/
def oldestCreated (db : List SessionRec) (uid : Nat) : Option Int :=
  listMinInt ((db.filter (fun r => r.user_id == uid && r.is_active)).map
    (fun r => r.created_at))

/-- Deactivation (`oldest_session.is_active = False`) of the row the
oldest-active query returns: the first session in store order that
belongs to the account, is active, and has the minimal creation
instant. -/
def deactivate_oldest : List SessionRec → Nat → Int → List SessionRec
  | [], _, _ => []
  | r :: rest, uid, m =>
    if r.user_id == uid && r.is_active && r.created_at == m then
      { r with is_active := false } :: rest
    else
      r :: deactivate_oldest rest uid m

/-- Embedding of `create_session` (security.py lines 168-205): when the
account's active-session count has reached `MAX_CONCURRENT_SESSIONS`,
deactivate the oldest active session first; then append the new session
(active, created now, expiring after the refresh lifetime).  When the
eviction branch finds no active session at all, `first()` returns `None`
and the source raises on the attribute assignment — embedded as `none`. -/
def create_session (s : Settings) (now : Int) (db : List SessionRec) (uid : Nat)
    (device_id device_info ip_address : String) :
    Option (List SessionRec × SessionRec) :=
  let step1 : Option (List SessionRec) :=
    if s.MAX_CONCURRENT_SESSIONS ≤ activeCount db uid then
      match oldestCreated db uid with
      | some m => some (deactivate_oldest db uid m)
      | none => none
    else some db
  match step1 with
  | none => none
  | some db1 =>
    let sess : SessionRec :=
      { user_id := uid, device_id := device_id, device_info := device_info,
        ip_address := ip_address, is_active := true, created_at := now,
        expires_at := now + 86400 * s.REFRESH_TOKEN_EXPIRE_DAYS }
    some (db1 ++ [sess], sess)

end GigaChat

namespace GigaChat

/-- Looking up the key just assigned returns the assigned value. -/
theorem dictGet_dictSet_self (m : ClaimMap) (k : String) (v : JVal) :
    dictGet (dictSet m k v) k = some v := by
  induction m with
  | nil => simp [dictSet, dictGet]
  | cons p rest ih =>
    by_cases h : p.1 = k
    · simp [dictSet, dictGet, h]
    · simp [dictSet, dictGet, h, ih]

/-- Assigning one key leaves lookups of every other key unchanged. -/
theorem dictGet_dictSet_ne (m : ClaimMap) (k : String) (v : JVal) (k' : String)
    (h : k' ≠ k) : dictGet (dictSet m k v) k' = dictGet m k' := by
  have h2 : ¬ (k = k') := fun hh => h hh.symm
  induction m with
  | nil => simp [dictSet, dictGet, h2]
  | cons p rest ih =>
    by_cases hp : p.1 = k
    · have hp' : ¬ (p.1 = k') := by rw [hp]; exact h2
      simp [dictSet, dictGet, hp, hp', h2]
    · by_cases hp' : p.1 = k'
      · simp [dictSet, dictGet, hp, hp', h]
      · simp [dictSet, dictGet, hp, hp', ih]

/-- Claim C1, counterexample to the claim as stated: with the default
settings (leeway 60 s), a token issued with ttl = 30 s is already invalid
at the very instant it is issued, because `verify_token` rejects whenever
`exp - leeway <= now` and `exp - leeway = now + 30 - 60 < now`. -/
theorem C1_counterexample :
    verify_token {} 1000 (create_access_token {} 1000 [] (some 30)) = none := rfl

/-- Claim C1 (amended): immediately after issuance, verification succeeds
and returns exactly the caller's claims plus the injected `exp`, `iat`
and the fixed issuer and audience, provided the effective time-to-live
(the given ttl when truthy, else the configured default lifetime)
strictly exceeds the configured leeway; a ttl at or below the leeway is
rejected at once. -/
theorem C1_round_trip (s : Settings) (now : Int) (data : ClaimMap)
    (ttl : Option Int)
    (h : now + s.PASETO_LEEWAY_SECONDS < access_token_expire s now ttl) :
    ∃ payload,
      verify_token s now (create_access_token s now data ttl) = some payload ∧
      dictGet payload "exp" = some (.num (access_token_expire s now ttl)) ∧
      dictGet payload "iat" = some (.num now) ∧
      dictGet payload "iss" = some (.str s.PASETO_ISSUER) ∧
      dictGet payload "aud" = some (.str s.PASETO_AUDIENCE) ∧
      ∀ k, k ≠ "exp" → k ≠ "iss" → k ≠ "aud" → k ≠ "iat" →
        dictGet payload k = dictGet data k := by
  set E := access_token_expire s now ttl with hE
  set p0 := dictSet data "exp" (JVal.num E) with hp0
  set p1 := dictSet p0 "iss" (JVal.str s.PASETO_ISSUER) with hp1
  set p2 := dictSet p1 "aud" (JVal.str s.PASETO_AUDIENCE) with hp2
  set p3 := dictSet p2 "iat" (JVal.num now) with hp3
  have hexp : dictGet p3 "exp" = some (JVal.num E) := by
    rw [hp3, dictGet_dictSet_ne _ _ _ _ (by decide),
        hp2, dictGet_dictSet_ne _ _ _ _ (by decide),
        hp1, dictGet_dictSet_ne _ _ _ _ (by decide),
        hp0, dictGet_dictSet_self]
  have hiss : dictGet p3 "iss" = some (JVal.str s.PASETO_ISSUER) := by
    rw [hp3, dictGet_dictSet_ne _ _ _ _ (by decide),
        hp2, dictGet_dictSet_ne _ _ _ _ (by decide),
        hp1, dictGet_dictSet_self]
  have haud : dictGet p3 "aud" = some (JVal.str s.PASETO_AUDIENCE) := by
    rw [hp3, dictGet_dictSet_ne _ _ _ _ (by decide),
        hp2, dictGet_dictSet_self]
  have hiat : dictGet p3 "iat" = some (JVal.num now) := by
    rw [hp3, dictGet_dictSet_self]
  have hlt : ¬ (E - s.PASETO_LEEWAY_SECONDS ≤ now) := by omega
  refine ⟨p3, ?_, hexp, hiat, hiss, haud, ?_⟩
  · have : create_access_token s now data ttl = PasetoToken.enc s.PASETO_SECRET p3 := by
      rw [create_access_token, hp3, hp2, hp1, hp0, hE]
    rw [this]
    simp [verify_token, hexp, hiss, haud, hlt]
  · intro k hke hki hka hkt
    rw [hp3, dictGet_dictSet_ne _ _ _ _ hkt,
        hp2, dictGet_dictSet_ne _ _ _ _ hka,
        hp1, dictGet_dictSet_ne _ _ _ _ hki,
        hp0, dictGet_dictSet_ne _ _ _ _ hke]

/-- Claim C1 (amended), witness: default settings, one caller claim
`sub`, ttl = 120 s > leeway = 60 s, issued and verified at instant 0. -/
theorem C1_round_trip_witness :
    ∃ payload,
      verify_token {} 0 (create_access_token {} 0 [("sub", .str "42")] (some 120)) =
        some payload ∧
      dictGet payload "exp" = some (.num (access_token_expire {} 0 (some 120))) ∧
      dictGet payload "iat" = some (.num 0) ∧
      dictGet payload "iss" = some (.str ({} : Settings).PASETO_ISSUER) ∧
      dictGet payload "aud" = some (.str ({} : Settings).PASETO_AUDIENCE) ∧
      ∀ k, k ≠ "exp" → k ≠ "iss" → k ≠ "aud" → k ≠ "iat" →
        dictGet payload k = dictGet [("sub", .str "42")] k :=
  C1_round_trip {} 0 [("sub", .str "42")] (some 120) (by decide)

/-- Claim C4, counterexample to the claim as stated: default settings
(leeway 60 s), a well-formed token under the right key with matching
issuer and audience, `exp = 100`, checked at `now = 50`.  The current
time is before expiry plus leeway (50 < 160), yet verification returns
the invalid outcome, because the code rejects already when
`exp - leeway <= now`. -/
theorem C4_counterexample :
    (50 : Int) < 100 + ({} : Settings).PASETO_LEEWAY_SECONDS ∧
    verify_token {} 50 (.enc ({} : Settings).PASETO_SECRET
      [("exp", .num 100), ("iss", .str "GigaChat"), ("aud", .str "GigaChat-Web")]) =
      none := by
  constructor
  · decide
  · rfl

/-- Claim C4 (amended): for every token whose decryption succeeds under
the configured key, whose `exp` claim is a numeric instant and whose
issuer and audience equal the configured values, verification accepts it
if and only if the current time is strictly before expiry MINUS the
configured leeway (the code subtracts the leeway, shortening the validity
window); otherwise it returns the invalid outcome. -/
theorem C4_expiry_leeway (s : Settings) (now exp : Int) (payload : ClaimMap)
    (hexp : dictGet payload "exp" = some (.num exp))
    (hiss : dictGet payload "iss" = some (.str s.PASETO_ISSUER))
    (haud : dictGet payload "aud" = some (.str s.PASETO_AUDIENCE)) :
    verify_token s now (.enc s.PASETO_SECRET payload) =
      if now < exp - s.PASETO_LEEWAY_SECONDS then some payload else none := by
  by_cases h : exp - s.PASETO_LEEWAY_SECONDS ≤ now
  · simp [verify_token, hexp, h, not_lt.mpr h]
  · have h2 : now < exp - s.PASETO_LEEWAY_SECONDS := by omega
    simp [verify_token, hexp, hiss, haud, h, h2]

/-- Claim C4 (amended), witness: default settings, `exp = 100`, verified
at `now = 0`: since 0 < 100 - 60, the payload is accepted. -/
theorem C4_expiry_leeway_witness :
    verify_token {} 0 (.enc ({} : Settings).PASETO_SECRET
      [("exp", .num 100), ("iss", .str "GigaChat"), ("aud", .str "GigaChat-Web")]) =
      if (0 : Int) < 100 - ({} : Settings).PASETO_LEEWAY_SECONDS then
        some [("exp", .num 100), ("iss", .str "GigaChat"), ("aud", .str "GigaChat-Web")]
      else none :=
  C4_expiry_leeway {} 0 100
    [("exp", .num 100), ("iss", .str "GigaChat"), ("aud", .str "GigaChat-Web")]
    rfl rfl rfl

/-- Claim C5: an account whose failed-attempt counter is one below the
threshold and whose last failure lies within the lockout window, upon one
more failed login, reaches the threshold, becomes locked, and gets
`lockout_until = now + lockout_duration`. -/
theorem C5_lock_at_threshold (s : Settings) (now t : Int) (u : UserState)
    (hcnt : u.failed_login_attempts + 1 = s.ACCOUNT_LOCKOUT_THRESHOLD)
    (hlast : u.last_failed_login = some t)
    (hwin : ¬ t < now - 60 * s.ACCOUNT_LOCKOUT_WINDOW_MINUTES) :
    (handle_failed_login s now u).failed_login_attempts = s.ACCOUNT_LOCKOUT_THRESHOLD ∧
    (handle_failed_login s now u).is_locked = true ∧
    (handle_failed_login s now u).lockout_until =
      some (now + 60 * s.ACCOUNT_LOCKOUT_DURATION_MINUTES) := by
  unfold handle_failed_login
  rw [hlast]
  simp only [if_neg hwin]
  have hth : s.ACCOUNT_LOCKOUT_THRESHOLD ≤ u.failed_login_attempts + 1 := hcnt.ge
  simp [if_pos hth, hcnt]

/-- Claim C5, witness: the default settings (threshold 5, window 15 min),
a user with 4 failed attempts whose last failure was 1 second ago. -/
theorem C5_lock_at_threshold_witness :
    (handle_failed_login {} 10000 ⟨false, 4, some 9999, none⟩).failed_login_attempts =
      ({} : Settings).ACCOUNT_LOCKOUT_THRESHOLD ∧
    (handle_failed_login {} 10000 ⟨false, 4, some 9999, none⟩).is_locked = true ∧
    (handle_failed_login {} 10000 ⟨false, 4, some 9999, none⟩).lockout_until =
      some (10000 + 60 * ({} : Settings).ACCOUNT_LOCKOUT_DURATION_MINUTES) :=
  C5_lock_at_threshold {} 10000 9999 ⟨false, 4, some 9999, none⟩
    (by decide) rfl (by decide)

/-- Claim C7: a failed attempt whose preceding recorded failure is older
than `now - window` resets the counter before incrementing, leaving it at
exactly 1. -/
theorem C7_window_reset (s : Settings) (now t : Int) (u : UserState)
    (hlast : u.last_failed_login = some t)
    (hold : t < now - 60 * s.ACCOUNT_LOCKOUT_WINDOW_MINUTES) :
    (handle_failed_login s now u).failed_login_attempts = 1 := by
  unfold handle_failed_login
  rw [hlast]
  simp only [if_pos hold]
  by_cases hth : s.ACCOUNT_LOCKOUT_THRESHOLD ≤ 0 + 1
  · simp [if_pos hth]
  · simp [if_neg hth]

/-- Claim C7, witness: default settings, a user whose only prior failure
was at instant 0, failing again at instant 10000 (window is 900 s):
the counter ends at 1 even though it was 1 before. -/
theorem C7_window_reset_witness :
    (handle_failed_login {} 10000 ⟨false, 1, some 0, none⟩).failed_login_attempts = 1 :=
  C7_window_reset {} 10000 0 ⟨false, 1, some 0, none⟩ rfl (by decide)

/-- Claim C6, counterexample to the claim as stated: with
`now = lockout_until = 100` we have `now ≥ lockout_until`, yet the check
still reports the account locked and leaves it unchanged (the code
unlocks only when `now` is strictly greater than `lockout_until`). -/
theorem C6_counterexample :
    (100 : Int) ≥ 100 ∧
    check_account_lockout 100 ⟨true, 3, some 90, some 100⟩ =
      (true, ⟨true, 3, some 90, some 100⟩) := by
  constructor
  · decide
  · rfl

/-- Claim C6 (amended): for a locked account with `lockout_until` set,
if `now ≤ lockout_until` the check reports locked and leaves the account
unchanged; if `now > lockout_until` (strictly) it reports not locked,
clears the locked flag, resets the counter to zero and clears
`lockout_until`. -/
theorem C6_lockout_check (now lu : Int) (u : UserState)
    (hl : u.is_locked = true) (hlu : u.lockout_until = some lu) :
    (now ≤ lu → check_account_lockout now u = (true, u)) ∧
    (lu < now → check_account_lockout now u =
      (false, { u with is_locked := false, failed_login_attempts := 0,
                       lockout_until := none })) := by
  unfold check_account_lockout
  rw [hlu, hl]
  constructor
  · intro h
    simp [not_lt.mpr h]
  · intro h
    simp [if_pos h]

/-- Claim C6 (amended), witness: a locked user with `lockout_until = 100`
checked at `now = 150` is unlocked and fully reset. -/
theorem C6_lockout_check_witness :
    check_account_lockout 150 ⟨true, 3, some 90, some 100⟩ =
      (false, ⟨false, 0, some 90, none⟩) :=
  (C6_lockout_check 150 100 ⟨true, 3, some 90, some 100⟩ rfl rfl).2 (by decide)

/-- Claim C10: recording a failed login never clears the locked flag and
never clears `lockout_until`, and whenever the post-increment counter is
at or above the threshold it sets `lockout_until = now + lockout_duration`. -/
theorem C10_failed_login_monotone (s : Settings) (now : Int) (u : UserState) :
    (u.is_locked = true → (handle_failed_login s now u).is_locked = true) ∧
    (u.lockout_until ≠ none → (handle_failed_login s now u).lockout_until ≠ none) ∧
    (s.ACCOUNT_LOCKOUT_THRESHOLD ≤ (handle_failed_login s now u).failed_login_attempts →
      (handle_failed_login s now u).lockout_until =
        some (now + 60 * s.ACCOUNT_LOCKOUT_DURATION_MINUTES)) := by
  unfold handle_failed_login
  cases hl : u.last_failed_login with
  | none =>
    by_cases hth : s.ACCOUNT_LOCKOUT_THRESHOLD ≤ u.failed_login_attempts + 1 <;>
      simp [hth]
  | some t =>
    by_cases hw : t < now - 60 * s.ACCOUNT_LOCKOUT_WINDOW_MINUTES
    · by_cases hth : s.ACCOUNT_LOCKOUT_THRESHOLD ≤ 0 + 1 <;>
        simp [hw, hth]
    · by_cases hth : s.ACCOUNT_LOCKOUT_THRESHOLD ≤ u.failed_login_attempts + 1 <;>
        simp [hw, hth]

/-- Taking characters up to the separator recovers exactly the part
before it, when that part is separator-free. -/
theorem takeWhile_until_sep (l1 l2 : List Char) (h : '$' ∉ l1) :
    (l1 ++ '$' :: l2).takeWhile (fun c => c != '$') = l1 := by
  induction l1 with
  | nil => simp
  | cons c rest ih =>
    have hc : c ≠ '$' := by
      intro hh
      exact h (hh ▸ List.mem_cons_self c rest)
    have hr : '$' ∉ rest := fun hh => h (List.mem_cons_of_mem c hh)
    simp [List.takeWhile_cons, hc, ih hr]

/-- The salt embedded by `bcrypt_hashpw` is recovered by
`bcrypt_salt_of`, provided the salt is separator-free. -/
theorem bcrypt_salt_of_hashpw (data salt : String) (h : '$' ∉ salt.data) :
    bcrypt_salt_of (bcrypt_hashpw data salt) = salt := by
  unfold bcrypt_salt_of bcrypt_hashpw
  have hd : (salt ++ "$" ++ data).data = salt.data ++ '$' :: data.data := by
    rw [String.data_append, String.data_append]
    simp
  rw [hd, takeWhile_until_sep _ _ h]

/-- The bcrypt model verifies a candidate against a stored hash exactly
when the hashed inputs coincide. -/
theorem bcrypt_checkpw_hashpw (data data' salt : String) (h : '$' ∉ salt.data) :
    bcrypt_checkpw data (bcrypt_hashpw data' salt) = (data == data') := by
  unfold bcrypt_checkpw
  rw [bcrypt_salt_of_hashpw data' salt h]
  by_cases hd : data = data'
  · subst hd
    simp
  · have hne : bcrypt_hashpw data salt ≠ bcrypt_hashpw data' salt := by
      intro hh
      apply hd
      have h1 := congrArg String.data hh
      unfold bcrypt_hashpw at h1
      rw [String.data_append, String.data_append, String.data_append,
          String.data_append] at h1
      exact String.ext (List.append_cancel_left h1)
    rw [beq_eq_false_iff_ne.mpr hne, beq_eq_false_iff_ne.mpr hd]

/-- Claim C3: verifying a password against its own peppered hash
succeeds, and verifying it against the hash of a different password
fails (bcrypt idealised as a collision-free salted digest; both
directions exercise the source's symmetric peppering). -/
theorem C3_pepper_round_trip (s : Settings) (salt p q : String)
    (hsalt : '$' ∉ salt.data) (hpq : p ≠ q) :
    verify_password s p (get_password_hash s salt p) = true ∧
    verify_password s p (get_password_hash s salt q) = false := by
  constructor
  · unfold verify_password get_password_hash
    rw [bcrypt_checkpw_hashpw _ _ _ hsalt]
    simp
  · unfold verify_password get_password_hash
    rw [bcrypt_checkpw_hashpw _ _ _ hsalt]
    apply beq_eq_false_iff_ne.mpr
    intro hh
    apply hpq
    have h1 := congrArg String.data hh
    rw [String.data_append, String.data_append] at h1
    exact String.ext (List.append_cancel_right h1)

/-- Claim C3, witness: default settings (pepper included), salt `s4lt`,
passwords `hello` and `world`. -/
theorem C3_pepper_round_trip_witness :
    verify_password {} "hello" (get_password_hash {} "s4lt" "hello") = true ∧
    verify_password {} "hello" (get_password_hash {} "s4lt" "world") = false :=
  C3_pepper_round_trip {} "s4lt" "hello" "world" (by decide) (by decide)

/-- Claim C2: evaluation of the code at the failing input.  With the
breach service configured and the password `Passw0rd!abc` passing every
structural check, a raising lookup call (unreachable service or timeout)
propagates out of `is_password_breached` and out of
`validate_password_strength` — a hard failure, not a skip — while the
unconfigured-key and non-200 cases do short-circuit to skip. -/
theorem C2_breach_check_raises :
    validate_password_strength { HIBP_API_KEY := some "test-key" } (fun _ => "ABCDEF")
      HttpResult.raises "Passw0rd!abc" = .error () ∧
    is_password_breached (fun _ => "ABCDEF") (some "test-key") HttpResult.raises
      "Passw0rd!abc" = .error () ∧
    is_password_breached (fun _ => "ABCDEF") none HttpResult.raises
      "Passw0rd!abc" = .ok false ∧
    is_password_breached (fun _ => "ABCDEF") (some "test-key")
      (HttpResult.response 503 "irrelevant") "Passw0rd!abc" = .ok false :=
  ⟨rfl, rfl, rfl, rfl⟩

/-- Membership in a filtered-and-projected list, from membership and the
filter condition. -/
theorem mem_map_filter {α β : Type} (l : List α) (p : α → Bool) (f : α → β)
    (a : α) (ha : a ∈ l) (hp : p a = true) : f a ∈ (l.filter p).map f :=
  List.mem_map_of_mem f (List.mem_filter.mpr ⟨ha, hp⟩)

/-- Claim C9: a password of at least the minimum length that is missing
one or more character classes is rejected with the single message that
joins the descriptions of the missing checks, and every failed check's
description is listed in it — not only the first one found. -/
theorem C9_missing_classes (s : Settings) (sha1hex : String → String)
    (net : HttpResult) (password : String)
    (hlen : ¬ password.length < s.MIN_PASSWORD_LENGTH)
    (hmiss : missing_checks password ≠ []) :
    validate_password_strength s sha1hex net password =
      .ok (false, "Password must contain at least one " ++
        String.intercalate ", " (missing_checks password)) ∧
    ∀ chk ∈ password_checks, password.data.any chk.1 = false →
      chk.2 ∈ missing_checks password := by
  constructor
  · unfold validate_password_strength
    rw [if_neg hlen, if_pos hmiss]
  · intro chk hchk hfail
    exact mem_map_filter password_checks (fun c => !password.data.any c.1)
      (fun c => c.2) chk hchk
      (by show (!password.data.any chk.1) = true
          rw [hfail]
          rfl)

/-- Claim C9, witness: twelve lowercase letters (missing uppercase,
digit, and special character) against the default minimum length 12. -/
theorem C9_missing_classes_witness :
    validate_password_strength {} (fun _ => "") HttpResult.raises "aaaaaaaaaaaa" =
      .ok (false, "Password must contain at least one " ++
        String.intercalate ", " (missing_checks "aaaaaaaaaaaa")) ∧
    ∀ chk ∈ password_checks, "aaaaaaaaaaaa".data.any chk.1 = false →
      chk.2 ∈ missing_checks "aaaaaaaaaaaa" :=
  C9_missing_classes {} (fun _ => "") HttpResult.raises "aaaaaaaaaaaa"
    (by decide) (by decide)

/-- Claim C10, witness: an already-locked user (5 prior failures, lockout
expiry 1200) failing again at instant 1000 within the window stays
locked, keeps a lockout expiry, and has it pushed to 1000 + 1800. -/
theorem C10_failed_login_monotone_witness :
    (handle_failed_login {} 1000 ⟨true, 5, some 950, some 1200⟩).is_locked = true ∧
    (handle_failed_login {} 1000 ⟨true, 5, some 950, some 1200⟩).lockout_until ≠ none ∧
    (handle_failed_login {} 1000 ⟨true, 5, some 950, some 1200⟩).lockout_until =
      some 2800 := by
  refine ⟨?_, ?_, ?_⟩
  · exact (C10_failed_login_monotone {} 1000 ⟨true, 5, some 950, some 1200⟩).1 rfl
  · exact (C10_failed_login_monotone {} 1000 ⟨true, 5, some 950, some 1200⟩).2.1
      (by decide)
  · exact (C10_failed_login_monotone {} 1000 ⟨true, 5, some 950, some 1200⟩).2.2
      (by decide)

/-- Unfolding equation for `listMinInt` on a nonempty list. -/
theorem listMinInt_cons (x : Int) (xs : List Int) :
    listMinInt (x :: xs) = match listMinInt xs with
      | none => some x
      | some m => some (min x m) := rfl

/-- A nonempty list of instants has a minimum. -/
theorem listMinInt_cons_some (y : Int) (ys : List Int) :
    ∃ m, listMinInt (y :: ys) = some m := by
  rw [listMinInt_cons]
  cases listMinInt ys
  · exact ⟨y, rfl⟩
  · exact ⟨_, rfl⟩

/-- The minimum of a list of instants is an element of it. -/
theorem listMinInt_mem (l : List Int) (m : Int) (h : listMinInt l = some m) :
    m ∈ l := by
  induction l generalizing m with
  | nil => simp [listMinInt] at h
  | cons x xs ih =>
    rw [listMinInt_cons] at h
    cases h2 : listMinInt xs with
    | none =>
      rw [h2] at h
      have hm : x = m := Option.some.inj h
      exact hm ▸ List.mem_cons_self x xs
    | some m' =>
      rw [h2] at h
      have hm : min x m' = m := Option.some.inj h
      rcases min_choice x m' with hc | hc
      · rw [hc] at hm
        exact hm ▸ List.mem_cons_self x xs
      · rw [hc] at hm
        exact List.mem_cons_of_mem x (hm ▸ ih m' h2)

/-- The minimum of a list of instants bounds every element below. -/
theorem listMinInt_le (l : List Int) (m b : Int) (h : listMinInt l = some m)
    (hb : b ∈ l) : m ≤ b := by
  induction l generalizing m with
  | nil => simp at hb
  | cons x xs ih =>
    rw [listMinInt_cons] at h
    cases h2 : listMinInt xs with
    | none =>
      rw [h2] at h
      have hm : x = m := Option.some.inj h
      have hxs : xs = [] := by
        cases xs with
        | nil => rfl
        | cons y ys =>
          obtain ⟨m', hm'⟩ := listMinInt_cons_some y ys
          rw [hm'] at h2
          exact absurd h2 (by simp)
      subst hxs
      rcases List.mem_cons.mp hb with he | ht
      · omega
      · simp at ht
    | some m' =>
      rw [h2] at h
      have hm : min x m' = m := Option.some.inj h
      rcases List.mem_cons.mp hb with he | ht
      · rw [he, ← hm]
        exact min_le_left x m'
      · have := ih m' h2 ht
        rw [← hm]
        omega

/-- Splitting a three-fold boolean conjunction. -/
theorem and3_parts {a b c : Bool} (h : (a && b && c) = true) :
    a = true ∧ b = true ∧ c = true := by
  cases a <;> cases b <;> cases c <;> simp_all

/-- When the oldest-active query returns an instant, some stored session
of the account is active with exactly that creation instant. -/
theorem oldestCreated_exists_match (db : List SessionRec) (uid : Nat) (m : Int)
    (h : oldestCreated db uid = some m) :
    ∃ r, r ∈ db ∧ (r.user_id == uid && r.is_active && (r.created_at == m)) = true := by
  unfold oldestCreated at h
  obtain ⟨r, hr, hrc⟩ := List.mem_map.mp (listMinInt_mem _ _ h)
  have hf := List.mem_filter.mp hr
  refine ⟨r, hf.1, ?_⟩
  simp [hf.2, hrc]

/-- The instant returned by the oldest-active query bounds the creation
instant of every active session of the account. -/
theorem oldestCreated_le (db : List SessionRec) (uid : Nat) (m : Int)
    (h : oldestCreated db uid = some m) :
    ∀ r ∈ db, r.user_id = uid → r.is_active = true → m ≤ r.created_at := by
  intro r hr hu ha
  exact listMinInt_le _ _ _ h
    (List.mem_map_of_mem _ (List.mem_filter.mpr ⟨hr, by simp [hu, ha]⟩))

/-- An account with at least one active session has an oldest one. -/
theorem oldestCreated_isSome (db : List SessionRec) (uid : Nat)
    (h : 0 < activeCount db uid) : ∃ m, oldestCreated db uid = some m := by
  unfold oldestCreated
  unfold activeCount at h
  cases hml : (db.filter (fun r => r.user_id == uid && r.is_active)).map
      (fun r => r.created_at) with
  | nil =>
    exfalso
    have hnil := List.map_eq_nil_iff.mp hml
    rw [hnil] at h
    simp at h
  | cons y ys =>
    exact listMinInt_cons_some y ys

/-- If the head of the store does not match the eviction triple, a
matching session lies in the tail. -/
theorem match_in_tail (uid : Nat) (m : Int) (r : SessionRec)
    (rest : List SessionRec)
    (h : ∃ x, x ∈ r :: rest ∧ (x.user_id == uid && x.is_active && (x.created_at == m)) = true)
    (hc : ¬ (r.user_id == uid && r.is_active && (r.created_at == m)) = true) :
    ∃ x, x ∈ rest ∧ (x.user_id == uid && x.is_active && (x.created_at == m)) = true := by
  obtain ⟨x, hx, hm⟩ := h
  rcases List.mem_cons.mp hx with he | ht
  · exact absurd (he ▸ hm) hc
  · exact ⟨x, ht, hm⟩

/-- `deactivate_oldest` replaces exactly one stored session — the first
matching one — flipping only its active flag. -/
theorem deactivate_oldest_spec (uid : Nat) (m : Int) :
    ∀ db : List SessionRec,
    (∃ r, r ∈ db ∧ (r.user_id == uid && r.is_active && (r.created_at == m)) = true) →
    ∃ i, ∃ hi : i < db.length,
      ((db.get ⟨i, hi⟩).user_id == uid && (db.get ⟨i, hi⟩).is_active &&
        ((db.get ⟨i, hi⟩).created_at == m)) = true ∧
      deactivate_oldest db uid m =
        db.set i { db.get ⟨i, hi⟩ with is_active := false } := by
  intro db h
  induction db with
  | nil =>
    obtain ⟨r, hr, _⟩ := h
    simp at hr
  | cons r rest ih =>
    by_cases hc : (r.user_id == uid && r.is_active && (r.created_at == m)) = true
    · refine ⟨0, by simp, hc, ?_⟩
      unfold deactivate_oldest
      rw [if_pos hc]
      rfl
    · obtain ⟨i, hi, hgi, heq⟩ := ih (match_in_tail uid m r rest h hc)
      refine ⟨i + 1, by simpa [Nat.succ_lt_succ_iff] using hi, hgi, ?_⟩
      unfold deactivate_oldest
      rw [if_neg hc]
      show r :: deactivate_oldest rest uid m = r :: rest.set i _
      rw [heq]
      rfl

/-- Contribution of a store's head to the active count. -/
theorem activeCount_cons (x : SessionRec) (l : List SessionRec) (uid : Nat) :
    activeCount (x :: l) uid =
      (if (x.user_id == uid && x.is_active) = true then 1 else 0) +
        activeCount l uid := by
  unfold activeCount
  by_cases hx : (x.user_id == uid && x.is_active) = true
  · simp [List.filter_cons, hx, Nat.add_comm]
  · simp [List.filter_cons, hx]

/-- The active count distributes over store concatenation. -/
theorem activeCount_append (l1 l2 : List SessionRec) (uid : Nat) :
    activeCount (l1 ++ l2) uid = activeCount l1 uid + activeCount l2 uid := by
  unfold activeCount
  rw [List.filter_append, List.length_append]

/-- Evicting a matching session brings the active count down by one. -/
theorem activeCount_deactivate_oldest (uid : Nat) (m : Int) :
    ∀ db : List SessionRec,
    (∃ r, r ∈ db ∧ (r.user_id == uid && r.is_active && (r.created_at == m)) = true) →
    activeCount (deactivate_oldest db uid m) uid + 1 = activeCount db uid := by
  intro db h
  induction db with
  | nil =>
    obtain ⟨r, hr, _⟩ := h
    simp at hr
  | cons r rest ih =>
    by_cases hc : (r.user_id == uid && r.is_active && (r.created_at == m)) = true
    · obtain ⟨h1, h2, _⟩ := and3_parts hc
      unfold deactivate_oldest
      rw [if_pos hc, activeCount_cons, activeCount_cons]
      simp [h1, h2]
      omega
    · have h' := match_in_tail uid m r rest h hc
      unfold deactivate_oldest
      rw [if_neg hc, activeCount_cons, activeCount_cons]
      have := ih h'
      omega

/-- Eviction touches only the account's own sessions: the sub-store of
every other account is unchanged. -/
theorem filter_other_deactivate (uid : Nat) (m : Int) :
    ∀ db : List SessionRec,
    (deactivate_oldest db uid m).filter (fun r => !(r.user_id == uid)) =
      db.filter (fun r => !(r.user_id == uid)) := by
  intro db
  induction db with
  | nil => rfl
  | cons r rest ih =>
    by_cases hc : (r.user_id == uid && r.is_active && (r.created_at == m)) = true
    · obtain ⟨h1, _, _⟩ := and3_parts hc
      unfold deactivate_oldest
      rw [if_pos hc]
      simp [List.filter_cons, h1]
    · unfold deactivate_oldest
      rw [if_neg hc]
      simp [List.filter_cons, ih]

/-- Claim C8: when the account's active-session count is at most the
configured maximum (which is positive), creating a session succeeds; the
new store keeps the account's active count within the maximum; every
other account's sub-store is untouched; and if the count was at the
maximum, the store change is exactly one session — an active one of this
account with minimal creation instant — turning inactive, followed by
the appended new session. -/
theorem C8_session_cap (s : Settings) (now : Int) (db : List SessionRec)
    (uid : Nat) (did dinfo ip : String)
    (hmax : 0 < s.MAX_CONCURRENT_SESSIONS)
    (hcnt : activeCount db uid ≤ s.MAX_CONCURRENT_SESSIONS) :
    ∃ db2 sess, create_session s now db uid did dinfo ip = some (db2, sess) ∧
      sess = { user_id := uid, device_id := did, device_info := dinfo,
               ip_address := ip, is_active := true, created_at := now,
               expires_at := now + 86400 * s.REFRESH_TOKEN_EXPIRE_DAYS } ∧
      activeCount db2 uid ≤ s.MAX_CONCURRENT_SESSIONS ∧
      db2.filter (fun r => !(r.user_id == uid)) =
        db.filter (fun r => !(r.user_id == uid)) ∧
      (s.MAX_CONCURRENT_SESSIONS ≤ activeCount db uid →
        ∃ i, ∃ hi : i < db.length,
          (db.get ⟨i, hi⟩).user_id = uid ∧
          (db.get ⟨i, hi⟩).is_active = true ∧
          (∀ r ∈ db, r.user_id = uid → r.is_active = true →
            (db.get ⟨i, hi⟩).created_at ≤ r.created_at) ∧
          db2 = db.set i { db.get ⟨i, hi⟩ with is_active := false } ++ [sess]) := by
  set sess : SessionRec :=
    { user_id := uid, device_id := did, device_info := dinfo,
      ip_address := ip, is_active := true, created_at := now,
      expires_at := now + 86400 * s.REFRESH_TOKEN_EXPIRE_DAYS } with hsess
  have hone : activeCount [sess] uid = 1 := by
    simp [activeCount, hsess]
  by_cases hfull : s.MAX_CONCURRENT_SESSIONS ≤ activeCount db uid
  · have hpos : 0 < activeCount db uid := lt_of_lt_of_le hmax hfull
    obtain ⟨m, hm⟩ := oldestCreated_isSome db uid hpos
    have hex := oldestCreated_exists_match db uid m hm
    obtain ⟨i, hi, hgi, heq⟩ := deactivate_oldest_spec uid m db hex
    obtain ⟨hg1, hg2, hg3⟩ := and3_parts hgi
    refine ⟨deactivate_oldest db uid m ++ [sess], sess, ?_, rfl, ?_, ?_, ?_⟩
    · simp [create_session, if_pos hfull, hm, hsess]
    · rw [activeCount_append, hone]
      have hc1 := activeCount_deactivate_oldest uid m db hex
      omega
    · rw [List.filter_append, filter_other_deactivate]
      simp [hsess]
    · intro _
      refine ⟨i, hi, eq_of_beq hg1, hg2, ?_, ?_⟩
      · intro r hr hu ha
        rw [eq_of_beq hg3]
        exact oldestCreated_le db uid m hm r hr hu ha
      · rw [heq]
  · refine ⟨db ++ [sess], sess, ?_, rfl, ?_, ?_, fun hcontra => absurd hcontra hfull⟩
    · simp [create_session, if_neg hfull, hsess]
    · rw [activeCount_append, hone]
      omega
    · rw [List.filter_append]
      simp [hsess]

/-- Claim C8, witness: maximum 2 concurrent sessions; account 1 holds
two active sessions (created at instants 10 and 5) and account 2 holds
one; account 1 logs in again at instant 20. -/
theorem C8_session_cap_witness :
    ∃ db2 sess,
      create_session { MAX_CONCURRENT_SESSIONS := 2 } 20
        [⟨1, "d1", "i1", "a1", true, 10, 999⟩, ⟨1, "d2", "i2", "a2", true, 5, 999⟩,
         ⟨2, "d3", "i3", "a3", true, 1, 999⟩] 1 "d4" "i4" "a4" =
        some (db2, sess) ∧
      sess = { user_id := 1, device_id := "d4", device_info := "i4",
               ip_address := "a4", is_active := true, created_at := 20,
               expires_at := 20 + 86400 *
                 ({ MAX_CONCURRENT_SESSIONS := 2 } : Settings).REFRESH_TOKEN_EXPIRE_DAYS } ∧
      activeCount db2 1 ≤
        ({ MAX_CONCURRENT_SESSIONS := 2 } : Settings).MAX_CONCURRENT_SESSIONS ∧
      db2.filter (fun r => !(r.user_id == 1)) =
        [⟨1, "d1", "i1", "a1", true, 10, 999⟩, ⟨1, "d2", "i2", "a2", true, 5, 999⟩,
         (⟨2, "d3", "i3", "a3", true, 1, 999⟩ : SessionRec)].filter
          (fun r => !(r.user_id == 1)) ∧
      (({ MAX_CONCURRENT_SESSIONS := 2 } : Settings).MAX_CONCURRENT_SESSIONS ≤
          activeCount [⟨1, "d1", "i1", "a1", true, 10, 999⟩,
            ⟨1, "d2", "i2", "a2", true, 5, 999⟩,
            ⟨2, "d3", "i3", "a3", true, 1, 999⟩] 1 →
        ∃ i, ∃ hi : i < ([⟨1, "d1", "i1", "a1", true, 10, 999⟩,
            ⟨1, "d2", "i2", "a2", true, 5, 999⟩,
            (⟨2, "d3", "i3", "a3", true, 1, 999⟩ : SessionRec)] : List SessionRec).length,
          (([⟨1, "d1", "i1", "a1", true, 10, 999⟩, ⟨1, "d2", "i2", "a2", true, 5, 999⟩,
             (⟨2, "d3", "i3", "a3", true, 1, 999⟩ : SessionRec)] : List SessionRec).get
            ⟨i, hi⟩).user_id = 1 ∧
          (([⟨1, "d1", "i1", "a1", true, 10, 999⟩, ⟨1, "d2", "i2", "a2", true, 5, 999⟩,
             (⟨2, "d3", "i3", "a3", true, 1, 999⟩ : SessionRec)] : List SessionRec).get
            ⟨i, hi⟩).is_active = true ∧
          (∀ r ∈ ([⟨1, "d1", "i1", "a1", true, 10, 999⟩,
              ⟨1, "d2", "i2", "a2", true, 5, 999⟩,
              (⟨2, "d3", "i3", "a3", true, 1, 999⟩ : SessionRec)] : List SessionRec),
            r.user_id = 1 → r.is_active = true →
            (([⟨1, "d1", "i1", "a1", true, 10, 999⟩, ⟨1, "d2", "i2", "a2", true, 5, 999⟩,
               (⟨2, "d3", "i3", "a3", true, 1, 999⟩ : SessionRec)] : List SessionRec).get
              ⟨i, hi⟩).created_at ≤ r.created_at) ∧
          db2 = ([⟨1, "d1", "i1", "a1", true, 10, 999⟩, ⟨1, "d2", "i2", "a2", true, 5, 999⟩,
             (⟨2, "d3", "i3", "a3", true, 1, 999⟩ : SessionRec)] : List SessionRec).set i
              { ([⟨1, "d1", "i1", "a1", true, 10, 999⟩, ⟨1, "d2", "i2", "a2", true, 5, 999⟩,
                 (⟨2, "d3", "i3", "a3", true, 1, 999⟩ : SessionRec)] : List SessionRec).get
                ⟨i, hi⟩ with is_active := false } ++ [sess]) :=
  C8_session_cap { MAX_CONCURRENT_SESSIONS := 2 } 20
    [⟨1, "d1", "i1", "a1", true, 10, 999⟩, ⟨1, "d2", "i2", "a2", true, 5, 999⟩,
     ⟨2, "d3", "i3", "a3", true, 1, 999⟩] 1 "d4" "i4" "a4"
    (by decide) (by decide)

end GigaChat
